import Mathlib

set_option autoImplicit false

/-!
Verification of the QSA Style Translation & Project Consistency Engine.

The definitions below are a shallow embedding of the Python source files
`qsa_api/raster/renderer.py`, `qsa_api/project.py` and
`qsa_api/api/projects.py`.  External collaborators (QGIS rendering engine,
MapProxy, storage) are modelled at their call interface: every value the
source obtains from a collaborator call is a parameter of the embedded
function, and every state the source mutates through a collaborator is an
explicit field of the state records.
-/

namespace QSA

/-! ### Raster symbology data model (renderer.py)

Models the state of the QGIS renderer objects the repository manipulates:
`QgsSingleBandGrayRenderer`, `QgsMultiBandColorRenderer`,
`QgsSingleBandPseudoColorRenderer` and `QgsContrastEnhancement`.
Numeric min/max values are modelled as rationals: the source only stores
and copies them, never computes with them. -/

/-- `QgsContrastEnhancement.ContrastEnhancementAlgorithm` values used by the
source (`NoEnhancement`, `StretchToMinimumMaximum`,
`UserDefinedEnhancement`). -/
inductive RAlg where
  | NoEnhancement
  | StretchToMinimumMaximum
  | UserDefinedEnhancement
  deriving DecidableEq, Repr

/-- `QgsRasterMinMaxOrigin.Limits` values the repository ever writes:
`MinMax` and `None_` (the latter is what the codec stores for a
`UserDefined` limits policy). -/
inductive RLimits where
  | MinMax
  | None_
  deriving DecidableEq, Repr

/-- `QgsSingleBandGrayRenderer.Gradient`. -/
inductive Gradient where
  | BlackToWhite
  | WhiteToBlack
  deriving DecidableEq, Repr

/-- A `QgsContrastEnhancement`: the enhancement algorithm together with the
minimum and maximum values. -/
structure CE where
  alg : RAlg
  minValue : ℚ
  maxValue : ℚ
  deriving DecidableEq, Repr

/-- State of a `QgsSingleBandGrayRenderer` attached to a layer: gray band,
gradient, the `minMaxOrigin` limits, and the contrast enhancement
(`none` models a null `contrastEnhancement()` pointer). -/
structure GrayState where
  grayBand : Int
  gradient : Gradient
  limits : RLimits
  ce : Option CE
  deriving DecidableEq, Repr

/-- State of a `QgsMultiBandColorRenderer`: one band per channel, the
`minMaxOrigin` limits and per-channel contrast enhancements (`none` models
a null pointer). -/
structure MultiState where
  redBand : Int
  greenBand : Int
  blueBand : Int
  limits : RLimits
  redCe : Option CE
  greenCe : Option CE
  blueCe : Option CE
  deriving DecidableEq, Repr

/-- `QgsColorRampShader.Type`. -/
inductive ShaderType where
  | Interpolated
  | Discrete
  | Exact
  deriving DecidableEq, Repr

/-- The shader installed by `_load_singlebandpseudocolor_properties`: a
color ramp name and an interpolation mode. -/
structure ShaderState where
  rampName : String
  shaderType : ShaderType
  deriving DecidableEq, Repr

/-- State of a `QgsSingleBandPseudoColorRenderer`: band, `minMaxOrigin`
limits and the optional raster shader. -/
structure PseudoState where
  band : Int
  limits : RLimits
  shader : Option ShaderState
  deriving DecidableEq, Repr

/-- A raster renderer attached to a layer: the tagged union over the three
renderer classes the repository supports. -/
inductive RasterRenderer where
  | gray (s : GrayState)
  | multi (s : MultiState)
  | pseudo (s : PseudoState)
  deriving DecidableEq, Repr

/-- The QGIS type tag strings returned by `renderer.type()` for the three
renderer classes (the values of `RasterSymbologyRenderer.Type`). -/
def grayTypeName : String := "singlebandgray"

def multiTypeName : String := "multibandcolor"

def pseudoTypeName : String := "singlebandpseudocolor"

/-! ### JSON style documents (raster)

Structural model of the `symbology.properties` JSON dictionaries accepted
by `RasterSymbologyRenderer.load` and produced by `style_to_json`.
A field of type `Option` models presence of the corresponding key.
`CeProps` and the `band` field of `BandProps` are mandatory because the
source accesses them with direct indexing. -/

/-- The `contrast_enhancement` sub-dictionary: `algorithm` and
`limits_min_max` are read with direct indexing in
`_load_contrast_enhancement`, so they are mandatory here. -/
structure CeProps where
  algorithm : String
  limits_min_max : String
  deriving DecidableEq, Repr

/-- A per-band sub-dictionary (`gray`, `red`, `green`, `blue`, `band`):
mandatory `band` key plus optional `min`/`max` keys. -/
structure BandProps where
  band : Int
  min : Option ℚ
  max : Option ℚ
  deriving DecidableEq, Repr

/-- The `ramp` sub-dictionary of a pseudocolor style. -/
structure RampProps where
  name : Option String
  interpolation : Option String
  deriving DecidableEq, Repr

/-- The raster `symbology.properties` dictionary. -/
structure RasterProps where
  contrast_enhancement : Option CeProps
  gray : Option BandProps
  red : Option BandProps
  green : Option BandProps
  blue : Option BandProps
  color_gradient : Option String
  band : Option BandProps
  ramp : Option RampProps
  deriving DecidableEq, Repr

/-- The empty `properties` dictionary. -/
def RasterProps.empty : RasterProps :=
  ⟨none, none, none, none, none, none, none, none⟩

/-! ### Encoding: `style_to_json` (renderer.py lines 105-245) -/

/-- `_singlebandgray_properties`: reads the renderer's gray band, contrast
enhancement min/max, gradient and limits.  Returns `none` when the
renderer has no contrast enhancement (the source would fault on the null
pointer). -/
def singlebandgrayProperties (s : GrayState) : Option RasterProps :=
  match s.ce with
  | none => none
  | some ce =>
    some { RasterProps.empty with
      gray := some ⟨s.grayBand, some ce.minValue, some ce.maxValue⟩
      color_gradient := some (match s.gradient with
        | .BlackToWhite => "BlackToWhite"
        | .WhiteToBlack => "WhiteToBlack")
      contrast_enhancement := some
        ⟨(if ce.alg = .StretchToMinimumMaximum then
            "StretchToMinimumMaximum" else "NoEnhancement"),
         (if s.limits = .MinMax then "MinMax" else "UserDefined")⟩ }

/-- `_multibandcolor_properties`: emits limits, the three band indices and,
when the red contrast enhancement exists, per-band min/max and the
algorithm read from the red channel.  When the red contrast enhancement
exists but green or blue is null the source faults (`none`). -/
def multibandcolorProperties (s : MultiState) : Option RasterProps :=
  let lim : String := if s.limits = .MinMax then "MinMax" else "UserDefined"
  match s.redCe with
  | none =>
    -- default behavior branch: no per-band min/max, algorithm defaulted
    some { RasterProps.empty with
      contrast_enhancement := some ⟨"StretchToMinimumMaximum", lim⟩
      red := some ⟨s.redBand, none, none⟩
      blue := some ⟨s.blueBand, none, none⟩
      green := some ⟨s.greenBand, none, none⟩ }
  | some rce =>
    match s.greenCe, s.blueCe with
    | some gce, some bce =>
      some { RasterProps.empty with
        contrast_enhancement := some
          ⟨(if rce.alg = .StretchToMinimumMaximum then
              "StretchToMinimumMaximum" else "NoEnhancement"), lim⟩
        red := some ⟨s.redBand, some rce.minValue, some rce.maxValue⟩
        blue := some ⟨s.blueBand, some bce.minValue, some bce.maxValue⟩
        green := some ⟨s.greenBand, some gce.minValue, some gce.maxValue⟩ }
    | _, _ => none

/-- `_singlebandpseudocolor_properties`: the source returns the empty
dictionary, dropping every pseudocolor attribute. -/
def singlebandpseudocolorProperties (_ : PseudoState) : Option RasterProps :=
  some RasterProps.empty

/-- The `symbology.properties` part of `style_to_json`, dispatching on the
renderer type exactly as the source does. -/
def styleToJsonProperties : RasterRenderer → Option RasterProps
  | .gray s => singlebandgrayProperties s
  | .multi s => multibandcolorProperties s
  | .pseudo s => singlebandpseudocolorProperties s

/-- The `symbology.type` part of `style_to_json` (`renderer.type()`). -/
def rendererTypeName : RasterRenderer → String
  | .gray _ => grayTypeName
  | .multi _ => multiTypeName
  | .pseudo _ => pseudoTypeName

/-! ### Decoding: `RasterSymbologyRenderer.__init__` / `load`
(renderer.py lines 30-49, 71-85, 316-424) -/

/-- The mutable state of a `RasterSymbologyRenderer` instance after
construction and `load`: the renderer object under construction plus the
side fields set by the loaders.  `band_min`/`band_max` mirror the
attributes assigned (and never read) by
`_load_singlebandpseudocolor_properties`. -/
structure LoadedRenderer where
  renderer : RasterRenderer
  contrast_algorithm : Option RAlg
  contrast_limits : RLimits
  gray_min : Option ℚ
  gray_max : Option ℚ
  red_min : Option ℚ
  red_max : Option ℚ
  green_min : Option ℚ
  green_max : Option ℚ
  blue_min : Option ℚ
  blue_max : Option ℚ
  band_min : Option ℚ
  band_max : Option ℚ
  deriving DecidableEq, Repr

/-- `RasterSymbologyRenderer.__init__`: a fresh renderer per type name, or
`none` when the name matches no supported type (`self.renderer = None`).
Fresh QGIS renderers carry band 1, default gradient `BlackToWhite`,
`MinMax` min/max origin and no contrast enhancement. -/
def mkRenderer (name : String) : Option RasterRenderer :=
  if name = grayTypeName then
    some (.gray ⟨1, .BlackToWhite, .MinMax, none⟩)
  else if name = multiTypeName then
    some (.multi ⟨1, 1, 1, .MinMax, none, none, none⟩)
  else if name = pseudoTypeName then
    some (.pseudo ⟨1, .MinMax, none⟩)
  else none

/-- Initial side-field state of a `RasterSymbologyRenderer` built around a
fresh renderer. -/
def initLoaded (r : RasterRenderer) : LoadedRenderer :=
  ⟨r, none, .MinMax, none, none, none, none, none, none, none, none,
   none, none⟩

/-- `_load_contrast_enhancement`: recognizes the two algorithm strings and
the two limits strings, leaving the fields unchanged otherwise. -/
def loadContrastEnhancement (ce : CeProps) (r : LoadedRenderer) :
    LoadedRenderer :=
  let r1 :=
    if ce.algorithm = "StretchToMinimumMaximum" then
      { r with contrast_algorithm := some .StretchToMinimumMaximum }
    else if ce.algorithm = "NoEnhancement" then
      { r with contrast_algorithm := some .NoEnhancement }
    else r
  if ce.limits_min_max = "UserDefined" then
    { r1 with contrast_limits := .None_ }
  else if ce.limits_min_max = "MinMax" then
    { r1 with contrast_limits := .MinMax }
  else r1

/-- `_load_singlebandgray_properties`.  Note the gradient comparison:
the loader matches the lowercase strings `"blacktowhite"` /
`"whitetoblack"` only. -/
def loadGrayProperties (props : RasterProps) (r : LoadedRenderer)
    (s : GrayState) : LoadedRenderer × GrayState :=
  let (r1, s1) :=
    match props.gray with
    | none => (r, s)
    | some g =>
      let s' := { s with grayBand := g.band }
      if r.contrast_limits = RLimits.None_ then
        ({ r with
            gray_min := (match g.min with | some v => some v | none => r.gray_min)
            gray_max := (match g.max with | some v => some v | none => r.gray_max) },
         s')
      else (r, s')
  match props.color_gradient with
  | some "blacktowhite" => (r1, { s1 with gradient := .BlackToWhite })
  | some "whitetoblack" => (r1, { s1 with gradient := .WhiteToBlack })
  | _ => (r1, s1)

/-- `_load_multibandcolor_properties`. -/
def loadMultiProperties (props : RasterProps) (r : LoadedRenderer)
    (s : MultiState) : LoadedRenderer × MultiState :=
  let (r1, s1) :=
    match props.red with
    | none => (r, s)
    | some red =>
      let s' := { s with redBand := red.band }
      if r.contrast_limits = RLimits.None_ then
        ({ r with
            red_min := (match red.min with | some v => some v | none => r.red_min)
            red_max := (match red.max with | some v => some v | none => r.red_max) },
         s')
      else (r, s')
  let (r2, s2) :=
    match props.blue with
    | none => (r1, s1)
    | some blue =>
      let s' := { s1 with blueBand := blue.band }
      if r1.contrast_limits = RLimits.None_ then
        ({ r1 with
            blue_min := (match blue.min with | some v => some v | none => r1.blue_min)
            blue_max := (match blue.max with | some v => some v | none => r1.blue_max) },
         s')
      else (r1, s')
  match props.green with
  | none => (r2, s2)
  | some green =>
    let s' := { s2 with greenBand := green.band }
    if r2.contrast_limits = RLimits.None_ then
      ({ r2 with
          green_min := (match green.min with | some v => some v | none => r2.green_min)
          green_max := (match green.max with | some v => some v | none => r2.green_max) },
       s')
    else (r2, s')

/-- `_load_singlebandpseudocolor_properties`: band assignment, dead
`band_min`/`band_max` captures, and shader installation (unknown
interpolation strings default to `Interpolated`, a missing ramp name
defaults to the built-in `"Spectral"` ramp). -/
def loadPseudoProperties (props : RasterProps) (r : LoadedRenderer)
    (s : PseudoState) : LoadedRenderer × PseudoState :=
  let (r1, s1) :=
    match props.band with
    | none => (r, s)
    | some b =>
      let s' := { s with band := b.band }
      if r.contrast_limits = RLimits.None_ then
        ({ r with
            band_min := (match b.min with | some v => some v | none => r.band_min)
            band_max := (match b.max with | some v => some v | none => r.band_max) },
         s')
      else (r, s')
  match props.ramp with
  | none => (r1, s1)
  | some ramp =>
    let shaderType : ShaderType :=
      match ramp.interpolation with
      | some "Discrete" => .Discrete
      | some "Exact" => .Exact
      | _ => .Interpolated
    let rampName : String :=
      match ramp.name with
      | some n => n
      | none => "Spectral"
    (r1, { s1 with shader := some ⟨rampName, shaderType⟩ })

/-- `RasterSymbologyRenderer(name).load(properties)`: construct the fresh
renderer for the type name, apply `_load_contrast_enhancement` when the
key is present, then the per-type loader.  `none` models the
`self.renderer = None` case (unsupported type name). -/
def rendererLoad (typeName : String) (props : RasterProps) :
    Option LoadedRenderer :=
  match mkRenderer typeName with
  | none => none
  | some r0 =>
    let l0 := initLoaded r0
    let l1 :=
      match props.contrast_enhancement with
      | some ce => loadContrastEnhancement ce l0
      | none => l0
    match l1.renderer with
    | .gray s =>
      let (l2, s2) := loadGrayProperties props l1 s
      some { l2 with renderer := .gray s2 }
    | .multi s =>
      let (l2, s2) := loadMultiProperties props l1 s
      some { l2 with renderer := .multi s2 }
    | .pseudo s =>
      let (l2, s2) := loadPseudoProperties props l1 s
      some { l2 with renderer := .pseudo s2 }

/-! ### Applying a decoded style to a layer
(`_add_style_raster`, project.py lines 546-647) -/

/-- `QgsRasterLayer.setContrastEnhancement(alg, limits)` as the repository
relies on it: every channel contrast enhancement of the renderer is
replaced by one carrying `alg`, the renderer's min/max origin is set to
`limits`, and when `limits` is `MinMax` the bounds are computed from the
dataset (here the collaborator-supplied `dsMin`/`dsMax`; for the
`None_` limits case the initial bounds are irrelevant to the repository,
which always overwrites them, and are represented by the same values). -/
def applyContrastEnhancement (alg : RAlg) (lim : RLimits)
    (dsMin dsMax : ℚ) : RasterRenderer → RasterRenderer
  | .gray s =>
    .gray { s with limits := lim, ce := some ⟨alg, dsMin, dsMax⟩ }
  | .multi s =>
    .multi { s with limits := lim
                    redCe := some ⟨alg, dsMin, dsMax⟩
                    greenCe := some ⟨alg, dsMin, dsMax⟩
                    blueCe := some ⟨alg, dsMin, dsMax⟩ }
  | .pseudo s => .pseudo { s with limits := lim }

/-- Helper for the user-defined min/max block of `_add_style_raster`:
overwrite a contrast enhancement's bounds with the loader's captured
values when they are present. -/
def overrideCe (mn mx : Option ℚ) : Option CE → Option CE
  | none => none
  | some ce =>
    some { ce with
      minValue := (match mn with | some v => v | none => ce.minValue)
      maxValue := (match mx with | some v => v | none => ce.maxValue) }

/-- The user-defined min/max block of `_add_style_raster` (executed when
the loaded contrast limits are `None_`): gray and multi-band renderers get
their bounds overwritten from the loader's captured values; other types
are untouched. -/
def applyUserMinMax (l : LoadedRenderer) : RasterRenderer → RasterRenderer
  | .gray s => .gray { s with ce := overrideCe l.gray_min l.gray_max s.ce }
  | .multi s =>
    .multi { s with
      redCe := overrideCe l.red_min l.red_max s.redCe
      greenCe := overrideCe l.green_min l.green_max s.greenCe
      blueCe := overrideCe l.blue_min l.blue_max s.blueCe }
  | .pseudo s => .pseudo s

/-- The renderer-side decode pipeline of `_add_style_raster`: load the
properties, install the renderer on the layer, then apply contrast
enhancement and the user-defined bounds.  `none` when the type name is
unsupported.  The guard `if renderer.contrast_algorithm:` tests Python
truthiness: PyQGIS exposes the unscoped contrast-enhancement enum with
int semantics, and `NoEnhancement` is its zero value, so a loaded
`NoEnhancement` algorithm is falsy and skips `setContrastEnhancement`
and the user-defined min/max block exactly like `None`. -/
def decodeProperties (typeName : String) (props : RasterProps)
    (dsMin dsMax : ℚ) : Option RasterRenderer :=
  match rendererLoad typeName props with
  | none => none
  | some l =>
    match l.contrast_algorithm with
    | none => some l.renderer
    | some RAlg.NoEnhancement => some l.renderer
    | some alg =>
      let r1 := applyContrastEnhancement alg l.contrast_limits dsMin dsMax
        l.renderer
      if l.contrast_limits = RLimits.None_ then some (applyUserMinMax l r1)
      else some r1

/-! ### Raster statistics refresher
(`refresh_min_max`, renderer.py lines 87-103 and 247-314)

`bandStatistics` is the rendering-engine collaborator: it maps a band
index to the sampled (minimum, maximum) pair.  A `none` result models a
raised Python exception (constructing a `QgsContrastEnhancement` from a
null pointer). -/

/-- `_refresh_min_max_singlebandgray`: copy the contrast enhancement,
return early when its algorithm is `NoEnhancement` or
`UserDefinedEnhancement`, otherwise recompute bounds from band 1
statistics when the min/max origin is `MinMax`, and store the copy back.
The source passes the literal band `1` to `bandStatistics`. -/
def refreshMinMaxSinglebandgray (stats : Int → ℚ × ℚ) (s : GrayState) :
    Option GrayState :=
  match s.ce with
  | none => none
  | some ce =>
    if ce.alg = .NoEnhancement ∨ ce.alg = .UserDefinedEnhancement then
      some s
    else
      if s.limits = RLimits.MinMax then
        some { s with
          ce := some { ce with
            minValue := (stats 1).1, maxValue := (stats 1).2 } }
      else some { s with ce := some ce }

/-- `_refresh_min_max_multibandcolor`: copies of the three channel
contrast enhancements are constructed first (faulting when any is null),
the red channel's algorithm gates the early return, and the bounds are
recomputed per channel from that channel's band statistics when the
min/max origin is `MinMax`. -/
def refreshMinMaxMultibandcolor (stats : Int → ℚ × ℚ) (s : MultiState) :
    Option MultiState :=
  match s.redCe, s.greenCe, s.blueCe with
  | some rce, some gce, some bce =>
    if rce.alg = .NoEnhancement ∨ rce.alg = .UserDefinedEnhancement then
      some s
    else
      if s.limits = RLimits.MinMax then
        some { s with
          redCe := some { rce with
            minValue := (stats s.redBand).1, maxValue := (stats s.redBand).2 }
          greenCe := some { gce with
            minValue := (stats s.greenBand).1
            maxValue := (stats s.greenBand).2 }
          blueCe := some { bce with
            minValue := (stats s.blueBand).1
            maxValue := (stats s.blueBand).2 } }
      else some { s with redCe := some rce, greenCe := some gce,
                         blueCe := some bce }
  | _, _, _ => none

/-- `RasterSymbologyRenderer.refresh_min_max`: early break when the
layer's min/max origin limits are `None_`, then dispatch per renderer
type.  The pseudocolor refresher is an explicit no-op in the source
(`pass`). -/
def refreshMinMax (stats : Int → ℚ × ℚ) : RasterRenderer →
    Option RasterRenderer
  | .gray s =>
    if s.limits = RLimits.None_ then some (.gray s)
    else (refreshMinMaxSinglebandgray stats s).map .gray
  | .multi s =>
    if s.limits = RLimits.None_ then some (.multi s)
    else (refreshMinMaxMultibandcolor stats s).map .multi
  | .pseudo s => some (.pseudo s)

/-- The min/max origin limits of a layer's renderer
(`layer.renderer().minMaxOrigin().limits()`). -/
def rendererLimits : RasterRenderer → RLimits
  | .gray s => s.limits
  | .multi s => s.limits
  | .pseudo s => s.limits

/-- The contrast-enhancement algorithm the refresher inspects: the gray
channel's for a gray renderer, the red channel's for a multi-band
renderer, none for pseudocolor. -/
def inspectedAlgorithm : RasterRenderer → Option RAlg
  | .gray s => s.ce.map CE.alg
  | .multi s => s.redCe.map CE.alg
  | .pseudo _ => none

/-- Channel contrast enhancements the refresher copies before its early
return: all three must be non-null for a multi-band renderer. -/
def cesPresent : RasterRenderer → Bool
  | .multi s => s.redCe.isSome && s.greenCe.isSome && s.blueCe.isSome
  | _ => true

/-! ### Raster style construction
(`_add_style_raster`, project.py lines 546-647) -/

/-- The raster `rendering` dictionary of `add_style`. -/
structure RasterRendering where
  gamma : Option ℚ
  brightness : Option Int
  contrast : Option Int
  saturation : Option Int
  deriving DecidableEq, Repr

/-- The brightness/hue-saturation filter state of a raster layer; QGIS
defaults are brightness 0, contrast 0, gamma 1, saturation 0. -/
structure RasterFilters where
  brightness : Int
  contrast : Int
  gamma : ℚ
  saturation : Int
  deriving DecidableEq, Repr

def RasterFilters.default : RasterFilters := ⟨0, 0, 1, 0⟩

/-- The full saved state of a raster style blob: the renderer and the
rendering filters (`saveNamedStyle` with all style categories). -/
structure RasterLayerState where
  renderer : RasterRenderer
  filters : RasterFilters
  deriving DecidableEq, Repr

/-- The raster `symbology` dictionary of `add_style`: optional `type` and
`properties` keys (checked by the guard clauses). -/
structure RasterStyleInput where
  typ : Option String
  properties : Option RasterProps
  deriving DecidableEq, Repr

/-- Applying the `rendering` dictionary to the layer's filters. -/
def applyRasterRendering (rendering : RasterRendering)
    (f : RasterFilters) : RasterFilters :=
  let f1 := match rendering.gamma with
    | some g => { f with gamma := g } | none => f
  let f2 := match rendering.brightness with
    | some b => { f1 with brightness := b } | none => f1
  let f3 := match rendering.contrast with
    | some c => { f2 with contrast := c } | none => f2
  match rendering.saturation with
  | some s => { f3 with saturation := s } | none => f3

/-- `_add_style_raster`: guard clauses for the `type` and `properties`
keys, codec load, rendering filters, contrast-enhancement application and
user-defined bounds, then the style blob that `saveNamedStyle` persists
(`none` blob when nothing is written). -/
def addStyleRaster (symbology : RasterStyleInput)
    (rendering : RasterRendering) (dsMin dsMax : ℚ) :
    (Bool × String) × Option RasterLayerState :=
  match symbology.typ with
  | none => ((false, "`type` is missing in `symbology`"), none)
  | some typeName =>
    match symbology.properties with
    | none => ((false, "`properties` is missing in `symbology`"), none)
    | some props =>
      let filters := applyRasterRendering rendering RasterFilters.default
      match decodeProperties typeName props dsMin dsMax with
      | none => ((false, "Error"), none)
      | some r => ((true, ""), some ⟨r, filters⟩)

/-! ### Python runtime errors

The engine performs no explicit validation on several paths; dictionary
and list accesses then surface as raised Python exceptions.  `Except
PyError` models a computation that may raise. -/

/-- Python exceptions raised by the embedded code paths. -/
inductive PyError where
  | keyError
  | indexError
  | valueError
  | typeError
  deriving DecidableEq, Repr

/-- Direct dictionary indexing `d[k]`: raises `KeyError` when absent. -/
def pyGet {α : Type} : Option α → Except PyError α
  | some a => .ok a
  | none => .error .keyError

/-- List indexing `l[i]`: raises `IndexError` when out of bounds. -/
def pyIndex {α : Type} (l : List α) (i : Nat) : Except PyError α :=
  match l[i]? with
  | some a => .ok a
  | none => .error .indexError

/-- Split a character list on a separator character, keeping empty
groups, with Python `str.split(sep)` semantics. -/
def splitOnChar (sep : Char) : List Char → List (List Char)
  | [] => [[]]
  | c :: rest =>
    let r := splitOnChar sep rest
    if c = sep then [] :: r
    else
      match r with
      | [] => [[c]]
      | g :: gs => (c :: g) :: gs

/-- Python `str.split(",")` as used by the color parsing; implemented
structurally over the character list so concrete inputs evaluate. -/
def pySplitComma (s : String) : List String :=
  (splitOnChar ',' s.data).map (fun l => ⟨l⟩)

/-- Decimal digits to a natural number; `none` when empty or when a
non-digit occurs. -/
def digitsToNat (l : List Char) : Option Nat :=
  match l with
  | [] => none
  | _ =>
    l.foldl
      (fun acc c =>
        match acc with
        | none => none
        | some n => if c.isDigit then some (n * 10 + (c.toNat - 48))
          else none)
      (some 0)

/-- Python `int(s)` on an optionally signed decimal literal (the shape of
the inputs the source passes); `none` models a `ValueError`. -/
def pyIntParse (s : String) : Option Int :=
  match s.data with
  | '-' :: rest => (digitsToNat rest).map (fun n => -(n : Int))
  | '+' :: rest => (digitsToNat rest).map (fun n => (n : Int))
  | l => (digitsToNat l).map (fun n => (n : Int))

/-- Python `int(s)`: raises `ValueError` when the string does not parse. -/
def pyInt (s : String) : Except PyError Int :=
  match pyIntParse s with
  | some n => .ok n
  | none => .error .valueError

/-! ### Vector symbology
(`_add_style_vector` and helpers, project.py lines 649-842) -/

/-- One entry of `list_categorized` / `list_graduated`: a JSON object
whose keys are accessed with direct indexing inside the loops.  `value`
and the per-entry visual keys are optional here (absence raises
`KeyError`); pass-through string values stay strings. -/
structure VEntry where
  value : Option String
  lower : Option ℚ
  upper : Option ℚ
  outline_width : Option String
  outline_style : Option String
  outline_color : Option String
  color : Option String
  symbol_path : Option String
  size : Option ℚ
  deriving DecidableEq, Repr

/-- The vector `symbology.properties` dictionary: visual keys for
`single_symbol`, plus `attributs` and the entry lists for the
classification modes.  (`VEntry.lower`/`VEntry.upper` model the `min` and
`max` keys of a graduated entry.) -/
structure VectorProps where
  outline_width : Option String
  outline_style : Option String
  outline_color : Option String
  color : Option String
  symbol_path : Option String
  size : Option ℚ
  attributs : Option String
  list_categorized : Option (List VEntry)
  list_graduated : Option (List VEntry)
  deriving DecidableEq, Repr

/-- A simple symbol as constructed by `createSimple(properties)` and the
SVG marker construction: the properties dictionary passed to QGIS is
recorded as a key/value list, and the marker carries the SVG path, the two
`QColor(r, g, b, a)` argument tuples and the size.  QGIS accepts any
integer arguments for `QColor` without raising. -/
inductive VSymbolState where
  | simpleFill (props : List (String × String))
  | simpleLine (props : List (String × String))
  | markerSvg (svgPath : String) (color : Int × Int × Int × Int)
      (stroke : Int × Int × Int × Int) (size : ℚ)
  deriving DecidableEq, Repr

/-- A vector renderer as constructed by the style helpers; category and
range labels are the constant `"test"` in the source and are omitted. -/
inductive VRenderer where
  | single (sym : VSymbolState)
  | categorized (attribut : String) (cats : List (String × VSymbolState))
  | graduated (attribut : String)
      (ranges : List (ℚ × ℚ × VSymbolState))
  deriving DecidableEq, Repr

/-- The SVG marker construction shared by the marker branches:
`str(color).split(",")`, then `QColor(int(p0), int(p1), int(p2),
int(p3))` (arguments evaluated left to right, so a missing index raises
`IndexError` and an unparseable channel raises `ValueError`), the stroke
color `QColor(0, 0, 0, int(p3))`, and the size.  No channel-count or
range validation is performed. -/
def buildMarkerSymbol (color svgPath : String) (size : ℚ) :
    Except PyError VSymbolState := do
  let parts := pySplitComma color
  let c0 ← pyIndex parts 0 >>= pyInt
  let c1 ← pyIndex parts 1 >>= pyInt
  let c2 ← pyIndex parts 2 >>= pyInt
  let c3 ← pyIndex parts 3 >>= pyInt
  .ok (.markerSvg svgPath (c0, c1, c2, c3) (0, 0, 0, c3) size)

/-- `_create_single_symbol_style`: dispatch on the `symbol` key; an
unsupported symbol yields no renderer (`None`). -/
def createSingleSymbolStyle (symbol : String) (props : VectorProps) :
    Except PyError (Option VRenderer) :=
  match symbol with
  | "fill" => do
    let w ← pyGet props.outline_width
    let st ← pyGet props.outline_style
    let oc ← pyGet props.outline_color
    let c ← pyGet props.color
    .ok (some (.single (.simpleFill
      [("outline_width", w), ("outline_style", st), ("outline_color", oc),
       ("color", c), ("outline_width_unit", "MM")])))
  | "line" => do
    let w ← pyGet props.outline_width
    let st ← pyGet props.outline_style
    let oc ← pyGet props.outline_color
    .ok (some (.single (.simpleLine
      [("line_width", w), ("line_style", st), ("color", oc),
       ("capstyle", "round"), ("line_width_unit", "MM"),
       ("joinstyle", "round")])))
  | "marker" => do
    let c ← pyGet props.color
    let path ← pyGet props.symbol_path
    let size ← pyGet props.size
    let sym ← buildMarkerSymbol c path size
    .ok (some (.single sym))
  | _ => .ok none

/-- One `list_categorized` entry under the `fill` symbol. -/
def categorizedFillEntry (e : VEntry) :
    Except PyError (String × VSymbolState) := do
  let w ← pyGet e.outline_width
  let st ← pyGet e.outline_style
  let oc ← pyGet e.outline_color
  let c ← pyGet e.color
  let v ← pyGet e.value
  .ok (v, .simpleFill
    [("outline_width", w), ("outline_style", st), ("outline_color", oc),
     ("color", c)])

/-- One `list_categorized` entry under the `line` symbol. -/
def categorizedLineEntry (e : VEntry) :
    Except PyError (String × VSymbolState) := do
  let w ← pyGet e.outline_width
  let st ← pyGet e.outline_style
  let oc ← pyGet e.outline_color
  let v ← pyGet e.value
  .ok (v, .simpleLine
    [("line_width", w), ("line_style", st), ("color", oc),
     ("outline_width_unit", "MM")])

/-- One `list_categorized` entry under the `marker` symbol: the same
unvalidated SVG marker construction as the single-symbol path. -/
def categorizedMarkerEntry (e : VEntry) :
    Except PyError (String × VSymbolState) := do
  let path ← pyGet e.symbol_path
  let c ← pyGet e.color
  let size ← pyGet e.size
  let sym ← buildMarkerSymbol c path size
  let v ← pyGet e.value
  .ok (v, sym)

/-- `_create_categorized_style`: read `attributs` and build one category
per `list_categorized` entry; an unsupported symbol yields no renderer. -/
def createCategorizedStyle (symbol : String) (props : VectorProps) :
    Except PyError (Option VRenderer) := do
  let attribut ← pyGet props.attributs
  match symbol with
  | "fill" => do
    let entries ← pyGet props.list_categorized
    let cats ← entries.mapM categorizedFillEntry
    .ok (some (.categorized attribut cats))
  | "line" => do
    let entries ← pyGet props.list_categorized
    let cats ← entries.mapM categorizedLineEntry
    .ok (some (.categorized attribut cats))
  | "marker" => do
    let entries ← pyGet props.list_categorized
    let cats ← entries.mapM categorizedMarkerEntry
    .ok (some (.categorized attribut cats))
  | _ => .ok none

/-- One `list_graduated` entry under the `fill` symbol. -/
def graduatedFillEntry (e : VEntry) :
    Except PyError (ℚ × ℚ × VSymbolState) := do
  let w ← pyGet e.outline_width
  let st ← pyGet e.outline_style
  let oc ← pyGet e.outline_color
  let c ← pyGet e.color
  let lo ← pyGet e.lower
  let hi ← pyGet e.upper
  .ok (lo, hi, .simpleFill
    [("outline_width", w), ("outline_style", st), ("outline_color", oc),
     ("outline_width_unit", "MM"), ("color", c)])

/-- One `list_graduated` entry under the `line` symbol. -/
def graduatedLineEntry (e : VEntry) :
    Except PyError (ℚ × ℚ × VSymbolState) := do
  let w ← pyGet e.outline_width
  let st ← pyGet e.outline_style
  let oc ← pyGet e.outline_color
  let lo ← pyGet e.lower
  let hi ← pyGet e.upper
  .ok (lo, hi, .simpleLine
    [("line_width", w), ("line_style", st), ("color", oc),
     ("line_width_unit", "MM")])

/-- One `list_graduated` entry under the `marker` symbol. -/
def graduatedMarkerEntry (e : VEntry) :
    Except PyError (ℚ × ℚ × VSymbolState) := do
  let path ← pyGet e.symbol_path
  let c ← pyGet e.color
  let size ← pyGet e.size
  let sym ← buildMarkerSymbol c path size
  let lo ← pyGet e.lower
  let hi ← pyGet e.upper
  .ok (lo, hi, sym)

/-- `_create_graduated_style`: read `attributs` and build one range per
`list_graduated` entry, in input order and without gap or overlap
validation; an unsupported symbol yields no renderer. -/
def createGraduatedStyle (symbol : String) (props : VectorProps) :
    Except PyError (Option VRenderer) := do
  let attribut ← pyGet props.attributs
  match symbol with
  | "fill" => do
    let entries ← pyGet props.list_graduated
    let ranges ← entries.mapM graduatedFillEntry
    .ok (some (.graduated attribut ranges))
  | "line" => do
    let entries ← pyGet props.list_graduated
    let ranges ← entries.mapM graduatedLineEntry
    .ok (some (.graduated attribut ranges))
  | "marker" => do
    let entries ← pyGet props.list_graduated
    let ranges ← entries.mapM graduatedMarkerEntry
    .ok (some (.graduated attribut ranges))
  | _ => .ok none

/-- The vector `symbology` dictionary of `add_style`. -/
structure VectorStyleInput where
  typ : Option String
  symbol : Option String
  properties : Option VectorProps
  deriving DecidableEq, Repr

/-- The vector `rendering` dictionary of `add_style`. -/
structure VectorRendering where
  opacity : Option ℚ
  deriving DecidableEq, Repr

/-- The saved state of a vector style blob (`saveNamedStyle` with the
symbology category): the renderer plus the layer opacity when set. -/
structure VectorLayerBlob where
  renderer : VRenderer
  opacity : Option ℚ
  deriving DecidableEq, Repr

/-- `_add_style_vector`: guard clauses for the `type`, `symbol` and
`properties` keys, style construction per classification mode (an
unknown `type` leaves no renderer), and the blob that `saveNamedStyle`
persists.  A raised exception propagates to the caller. -/
def addStyleVector (symbology : VectorStyleInput)
    (rendering : VectorRendering) :
    Except PyError ((Bool × String) × Option VectorLayerBlob) :=
  match symbology.typ with
  | none => .ok ((false, "`type` is missing in `symbology`"), none)
  | some typeName =>
    match symbology.symbol with
    | none => .ok ((false, "`symbol` is missing in `symbology`"), none)
    | some symbol =>
      match symbology.properties with
      | none => .ok ((false, "`properties` is missing in `symbology`"), none)
      | some props => do
        let render ←
          match typeName with
          | "single_symbol" => createSingleSymbolStyle symbol props
          | "graduated" => createGraduatedStyle symbol props
          | "categorized" => createCategorizedStyle symbol props
          | _ => .ok none
        match render with
        | some r => .ok ((true, ""), some ⟨r, rendering.opacity⟩)
        | none => .ok ((false, "Error"), none)

/-! ### Project state (project.py)

The persisted state of one project: the layer records of the project
descriptor, the stored style blobs (`<name>.qml` files), the
`styles_default` table of the embedded database, and the cache-mirror
configuration.  Layer records are a name-level projection: the per-layer
rendering state lives in the stored style blobs and the QGIS project and
is modelled by the codec section above.  For resolved raster layers the
channel contrast enhancements exist, so the min/max refresh performed
when a style is made current returns normally and does not affect this
projection. -/

/-- One layer of the project descriptor: its style-manager state
(`styles` are the named styles attached to the layer, `currentStyle` the
current one), the geometry class for vector layers, and the raster
temporal instant. -/
structure LayerRec where
  name : String
  isRaster : Bool
  geometry : String
  currentStyle : String
  styles : List String
  temporal : Option String
  deriving DecidableEq, Repr

/-- The `styles_default` table created by `sqlite_db`: one style name per
geometry class. -/
structure DefaultStyleTable where
  point : String
  line : String
  polygon : String
  deriving DecidableEq, Repr

/-- Initial table: all three entries `"default"`. -/
def DefaultStyleTable.init : DefaultStyleTable :=
  ⟨"default", "default", "default"⟩

/-- Modelled from the spec: one `CacheMirrorEntry` of the MapProxy
configuration (`{bbox[4], epsg, is_raster, temporal?}` keyed by layer
name); the source file `qsa_api/mapproxy.py` is not under `src/` and its
configuration object is taken from the spec's cache-mirror interface. -/
structure CacheMirrorEntry where
  bbox : List ℚ
  epsg : Int
  isRaster : Bool
  temporal : Option String
  deriving DecidableEq, Repr

/-- A stored style blob: the serialized vector or raster style document. -/
inductive StyleBlob where
  | raster (s : RasterLayerState)
  | vector (b : VectorLayerBlob)
  deriving DecidableEq, Repr

/-- The persisted state of a project. -/
structure ProjectState where
  layers : List LayerRec
  styleBlobs : List (String × StyleBlob)
  defaultStyles : DefaultStyleTable
  mirror : List (String × CacheMirrorEntry)
  deriving DecidableEq, Repr

/-- The freshly created project of `create`: empty layer set, no styles,
the initialized default-style table and an empty mirror configuration. -/
def ProjectState.fresh : ProjectState :=
  ⟨[], [], DefaultStyleTable.init, []⟩

/-- The `layers` property: the layer names of the descriptor. -/
def layerNames (st : ProjectState) : List String :=
  st.layers.map LayerRec.name

/-- The `styles` property: the stems of the stored `.qml` files. -/
def styleNames (st : ProjectState) : List String :=
  st.styleBlobs.map Prod.fst

/-- Look up a stored style blob by name. -/
def lookupBlob (st : ProjectState) (name : String) : Option StyleBlob :=
  (st.styleBlobs.find? (fun p => p.1 = name)).map Prod.snd

/-- Writing `<name>.qml`: the filesystem keeps one file per name, so an
existing blob under the same name is silently replaced. -/
def upsertBlob (name : String) (b : StyleBlob) :
    List (String × StyleBlob) → List (String × StyleBlob)
  | [] => [(name, b)]
  | (k, v) :: rest =>
    if k = name then (name, b) :: rest else (k, v) :: upsertBlob name b rest

/-- `style_default(geometry)`: the table lookup; an unknown geometry class
finds no row and the source faults on `fetchone()[0]` (`none`). -/
def styleDefault (t : DefaultStyleTable) (geometry : String) :
    Option String :=
  if geometry = "point" then some t.point
  else if geometry = "line" then some t.line
  else if geometry = "polygon" then some t.polygon
  else none

/-- `style_update(geometry, style)`: an unconditional SQL `UPDATE`; an
unknown geometry class matches no row and changes nothing. -/
def styleUpdate (t : DefaultStyleTable) (geometry style : String) :
    DefaultStyleTable :=
  if geometry = "point" then { t with point := style }
  else if geometry = "line" then { t with line := style }
  else if geometry = "polygon" then { t with polygon := style }
  else t

/-- Replace the first element satisfying `p` (the source mutates the first
layer returned by `mapLayersByName`). -/
def updateFirst {α : Type} (p : α → Bool) (f : α → α) : List α → List α
  | [] => []
  | x :: xs => if p x then f x :: xs else x :: updateFirst p f xs

/-- Python `str.strip()` (the source strips the layer name before the
lookup): drop whitespace from both ends; implemented structurally so that
concrete inputs evaluate in the kernel. -/
def pyStrip (s : String) : String :=
  ⟨((s.data.dropWhile Char.isWhitespace).reverse.dropWhile
      Char.isWhitespace).reverse⟩

/-- The per-layer effect of `layer_update_style` on the looked-up layer:
attach the style as a new named entry when not yet attached, and make it
current when requested. -/
def attachStyle (styleName : String) (current : Bool) (l : LayerRec) :
    LayerRec :=
  let l1 := if styleName ∈ l.styles then l
    else { l with styles := l.styles ++ [styleName] }
  if current then { l1 with currentStyle := styleName } else l1

/-- `layer_update_style(layer_name, style_name, current)`: clear the cache
tiles for the layer (no effect on this state projection), look the layer
up by its stripped name (an absent layer faults on `[0]`, `none`), attach
the style as a new named entry when not yet attached (copy-on-attach: the
stored blob is read, never written), make it current when requested, and
write the project back.  The source returns `(True, "")` on every
non-raising path. -/
def layerUpdateStyle (st : ProjectState) (layerName styleName : String)
    (current : Bool) : Option ((Bool × String) × ProjectState) :=
  let key := pyStrip layerName
  match st.layers.find? (fun l => l.name = key) with
  | none => none
  | some _ =>
    let newLayers := updateFirst (fun l => l.name = key)
      (attachStyle styleName current) st.layers
    some ((true, ""), { st with layers := newLayers })

/-- `remove_style(name)`: refuse when the blob is absent or when some
layer's current style is the name; otherwise detach the name from every
layer's style manager, delete the blob file and write the project back
(the write's result is ignored by the source). -/
def removeStyle (st : ProjectState) (name : String) :
    (Bool × String) × ProjectState :=
  if name ∉ styleNames st then ((false, "Style does not exist"), st)
  else if st.layers.any (fun l => l.currentStyle = name) then
    ((false, "Style is used"), st)
  else
    ((true, ""),
      { st with
        layers := st.layers.map
          (fun l => { l with styles := l.styles.filter (· ≠ name) })
        styleBlobs := st.styleBlobs.filter (fun p => p.1 ≠ name) })

/-- `remove_layer(name)`: remove every matching layer from the descriptor
and write it back (`writeOk` is the collaborator's write result; on a
failed write the persisted descriptor is unchanged).  When MapProxy is
enabled the mirror is then read (`mpReadOk`; on failure the error is
logged and `False` is returned — after the descriptor write), the entry
retracted and the mirror written (`mpWriteOk`, result ignored), and the
returned boolean is the mirror read result, not the descriptor write
result. -/
def removeLayer (mapproxyEnabled writeOk mpReadOk mpWriteOk : Bool)
    (st : ProjectState) (name : String) : Bool × ProjectState :=
  let removed := { st with layers := st.layers.filter (fun l => l.name ≠ name) }
  let st1 := if writeOk then removed else st
  if mapproxyEnabled then
    if !mpReadOk then (false, st1)
    else
      (true,
        if mpWriteOk then
          { st1 with mirror := st1.mirror.filter (fun p => p.1 ≠ name) }
        else st1)
  else (writeOk, st1)

/-- The return value of a Python function that sometimes returns a bare
boolean and sometimes a `(success, message)` tuple. -/
inductive PyRet where
  | bare (b : Bool)
  | pair (b : Bool) (msg : String)
  deriving DecidableEq, Repr

/-- `create(author)`: when the project already exists the source returns
the bare value `False` (not a tuple); otherwise it allocates the project
directory, writes a fresh descriptor (`writeOk`/`writeErr` from the
storage collaborator), creates the mirror configuration when MapProxy is
enabled, initializes the default-style table, and returns the
`(rc, error)` pair. -/
def createProject (writeOk : Bool) (writeErr : String)
    (_mapproxyEnabled : Bool) :
    Option ProjectState → PyRet × Option ProjectState
  | some st => (.bare false, some st)
  | none =>
    if writeOk then (.pair true writeErr, some ProjectState.fresh)
    else (.pair false writeErr, none)

/-! ### Layer addition (`add_layer`, project.py lines 410-528) -/

/-- `_layer_type`: case-insensitive dispatch on the layer-type string. -/
inductive LayerKind where
  | vector
  | raster
  deriving DecidableEq, Repr

/-- ASCII lowercase of one character (the layer-type strings compared by
the source are ASCII); implemented structurally so concrete inputs
evaluate. -/
def asciiLower (c : Char) : Char :=
  if 'A' ≤ c ∧ c ≤ 'Z' then Char.ofNat (c.toNat + 32) else c

/-- Python `str.lower()` on an ASCII string. -/
def pyLower (s : String) : String := ⟨s.data.map asciiLower⟩

def layerTypeOf (s : String) : Option LayerKind :=
  if pyLower s = "vector" then some .vector
  else if pyLower s = "raster" then some .raster
  else none

/-- The collaborator responses `add_layer` consumes for one call:
the validity of the constructed layer (the source checks `isValid` both
before and after the optional CRS override; a failure of either check
aborts with the same message shape and is collapsed into one flag), the
vector geometry class name, the numeric EPSG code parsed from the layer's
CRS authid (`-1` when unresolvable), the raster overview state and build
result, the layer's bounding box, and the MapProxy read/add results. -/
structure LayerWorld where
  valid : Bool
  geometry : String
  resolvedEpsg : Int
  overviewExists : Bool
  overviewBuildOk : Bool
  bbox : List ℚ
  mapproxyEnabled : Bool
  mpReadOk : Bool
  mpAddOk : Bool
  deriving DecidableEq, Repr

/-- `add_layer(datasource, layer_type, name, epsg_code, overview,
datetime)`.  Failure checks in source order: layer-type dispatch,
duplicate name, raster overview build, layer validity.  On the success
path the layer is registered and the descriptor written, then for vector
layers the default style for the geometry class is applied as current
(`style_default` faults on an unknown geometry class, and
`layer_update_style` faults when the stripped name finds no layer: both
give `none`), and only then — when MapProxy is enabled — the CRS code is
checked and the mirror updated, each failure returning with the layer
already registered.  The descriptor write's return value is ignored by
the source. -/
def addLayer (w : LayerWorld) (st : ProjectState)
    (layerTypeStr name : String) (overview : Bool)
    (datetime : Option String) :
    Option ((Bool × String) × ProjectState) :=
  match layerTypeOf layerTypeStr with
  | none => some ((false, "Invalid layer type"), st)
  | some t =>
    if name ∈ layerNames st then
      some ((false, "A layer with this name already exists"), st)
    else if t = .raster && overview && !w.overviewExists
        && !w.overviewBuildOk then
      some ((false, "Overview build error"), st)
    else if !w.valid then
      some ((false, "Invalid layer"), st)
    else
      let newLayer : LayerRec :=
        { name := name
          isRaster := t = .raster
          geometry := w.geometry
          currentStyle := "default"
          styles := ["default"]
          temporal := if t = .raster then datetime else none }
      let st1 := { st with layers := st.layers ++ [newLayer] }
      let afterStyle : Option ProjectState :=
        if t = .vector then
          match styleDefault st1.defaultStyles w.geometry with
          | none => none
          | some ds =>
            match layerUpdateStyle st1 name ds true with
            | none => none
            | some (_, st2) => some st2
        else some st1
      match afterStyle with
      | none => none
      | some st2 =>
        if w.mapproxyEnabled then
          if w.resolvedEpsg < 0 then some ((false, "Invalid CRS"), st2)
          else if !w.mpReadOk then
            some ((false, "MapProxy read error"), st2)
          else if !w.mpAddOk then
            some ((false, "MapProxy add error"), st2)
          else
            some ((true, ""),
              { st2 with mirror := st2.mirror ++
                  [(name, ⟨w.bbox, w.resolvedEpsg, t = .raster, datetime⟩)] })
        else some ((true, ""), st2)

/-- `add_style(name, layer_type, symbology, rendering)` for the raster
kind: run `_add_style_raster` and persist the produced blob under the
name, overwriting any existing blob file. -/
def addStyleRasterProject (st : ProjectState) (name : String)
    (symbology : RasterStyleInput) (rendering : RasterRendering)
    (dsMin dsMax : ℚ) : (Bool × String) × ProjectState :=
  match addStyleRaster symbology rendering dsMin dsMax with
  | (res, none) => (res, st)
  | (res, some blob) =>
    (res, { st with styleBlobs := upsertBlob name (.raster blob) st.styleBlobs })

/-- `add_style(name, layer_type, symbology, rendering)` for the vector
kind: run `_add_style_vector` and persist the produced blob under the
name, overwriting any existing blob file; a raised exception leaves the
store untouched. -/
def addStyleVectorProject (st : ProjectState) (name : String)
    (symbology : VectorStyleInput) (rendering : VectorRendering) :
    Except PyError ((Bool × String) × ProjectState) :=
  match addStyleVector symbology rendering with
  | .error e => .error e
  | .ok (res, none) => .ok (res, st)
  | .ok (res, some blob) =>
    .ok (res,
      { st with styleBlobs := upsertBlob name (.vector blob) st.styleBlobs })

/-! ### API shell (api/projects.py) -/

/-- The request body of `POST /projects/<name>/layers`. -/
structure AddLayerRequest where
  name : String
  datasource : String
  typ : String
  crs : Option Int
  overview : Option Bool
  datetime : Option String
  deriving DecidableEq, Repr

/-- `project_add_layer`: parse the optional datetime with the Qt parser
(`parseDT`, the Qt collaborator for the format `yyyy-MM-dd HH:mm:ss`;
`none` models an invalid `QDateTime`), returning the `Invalid datetime`
error without touching the engine when parsing fails; otherwise call
`add_layer` and map an engine failure or a raised exception to an error
response.  The outer `none` models an exception escaping the engine. -/
def projectAddLayer (parseDT : String → Option String) (w : LayerWorld)
    (st : ProjectState) (req : AddLayerRequest) :
    Option ((Bool × String) × ProjectState) :=
  let run : Option String → Option ((Bool × String) × ProjectState) :=
    fun dt =>
      match addLayer w st req.typ req.name (req.overview.getD false) dt with
      | none => none
      | some ((true, _), st') => some ((true, ""), st')
      | some ((false, err), st') => some ((false, err), st')
  match req.datetime with
  | none => run none
  | some s =>
    match parseDT s with
    | none => some ((false, "Invalid datetime"), st)
    | some d => run (some d)

/-- `project_add` (`POST /projects/`): when the project already exists the
shell raises `Project already exists` before calling the engine and maps
it to an error response; otherwise it calls `create` and unpacks the
returned pair. -/
def projectAdd (writeOk : Bool) (writeErr : String)
    (mapproxyEnabled : Bool) :
    Option ProjectState → (Bool × String) × Option ProjectState
  | some st => ((false, "Project already exists"), some st)
  | none =>
    match createProject writeOk writeErr mapproxyEnabled none with
    | (.pair true _, st') => ((true, ""), st')
    | (.pair false err, st') => ((false, err), st')
    | (.bare _, st') => ((false, "unreachable"), st')

/-! ### Helper lemmas -/

theorem find?_updateFirst {α : Type} (p : α → Bool) (f : α → α)
    (xs : List α) (x : α) (h : xs.find? p = some x) (hf : p (f x) = true) :
    (updateFirst p f xs).find? p = some (f x) := by
  induction xs with
  | nil => simp at h
  | cons a xs ih =>
    by_cases hp : p a = true
    · rw [List.find?_cons_of_pos _ hp] at h
      injection h with h
      subst h
      simp [updateFirst, hp, List.find?_cons_of_pos _ hf]
    · have hp' : p a = false := by
        cases hpa : p a
        · rfl
        · exact absurd hpa hp
      rw [List.find?_cons_of_neg _ (by simp [hp'])] at h
      simp [updateFirst, hp', List.find?_cons_of_neg,
        ih h]

theorem find?_append_left_none {α : Type} (p : α → Bool) (xs ys : List α)
    (h : ∀ x ∈ xs, p x = false) :
    (xs ++ ys).find? p = ys.find? p := by
  induction xs with
  | nil => simp
  | cons a xs ih =>
    have ha := h a (by simp)
    simp only [List.cons_append]
    rw [List.find?_cons_of_neg _ (by simp [ha])]
    exact ih (fun x hx => h x (by simp [hx]))

theorem updateFirst_append_left_none {α : Type} (p : α → Bool) (f : α → α)
    (xs ys : List α) (h : ∀ x ∈ xs, p x = false) :
    updateFirst p f (xs ++ ys) = xs ++ updateFirst p f ys := by
  induction xs with
  | nil => simp
  | cons a xs ih =>
    have ha := h a (by simp)
    simp only [List.cons_append, updateFirst, ha]
    simp [ih (fun x hx => h x (by simp [hx]))]

/-! ### Claim theorems -/

/-- C3: `remove_style(name)` on an existing style fails with the
style-in-use error and changes nothing whenever some layer's current
style equals `name`; when no layer's current style equals `name` it
succeeds, deletes the stored blob and detaches the name from every
layer's style set. -/
theorem removeStyle_spec (st : ProjectState) (name : String)
    (hname : name ∈ styleNames st) :
    ((∃ l ∈ st.layers, l.currentStyle = name) →
      removeStyle st name = ((false, "Style is used"), st)) ∧
    ((∀ l ∈ st.layers, l.currentStyle ≠ name) →
      (removeStyle st name).1 = (true, "") ∧
      name ∉ styleNames (removeStyle st name).2 ∧
      ∀ l ∈ (removeStyle st name).2.layers, name ∉ l.styles) := by
  constructor
  · rintro ⟨l, hl, hcur⟩
    have hany : st.layers.any (fun l => l.currentStyle = name) = true := by
      simp only [List.any_eq_true]
      exact ⟨l, hl, by simp [hcur]⟩
    simp [removeStyle, hname, hany]
  · intro hnone
    have hany : st.layers.any (fun l => l.currentStyle = name) = false := by
      simp only [List.any_eq_false]
      intro l hl
      simp [hnone l hl]
    have heq : removeStyle st name = ((true, ""),
        { st with
          layers := st.layers.map
            (fun l => { l with styles := l.styles.filter (· ≠ name) })
          styleBlobs := st.styleBlobs.filter (fun p => p.1 ≠ name) }) := by
      simp [removeStyle, hname, hany]
    refine ⟨by rw [heq], ?_, ?_⟩
    · rw [heq]
      simp [styleNames, List.mem_map, List.mem_filter]
    · rw [heq]
      intro l hl
      simp only [List.mem_map] at hl
      obtain ⟨l0, _, rfl⟩ := hl
      simp [List.mem_filter]

/-- C3 witness: a project with stored style `s1` current on layer `l0`:
`remove_style("s1")` fails and leaves the state unchanged. -/
theorem removeStyle_spec_witness :
    removeStyle
      ⟨[⟨"l0", false, "polygon", "s1", ["default", "s1"], none⟩],
       [("s1", .vector ⟨.single (.simpleFill []), none⟩)],
       DefaultStyleTable.init, []⟩ "s1" =
    ((false, "Style is used"),
      ⟨[⟨"l0", false, "polygon", "s1", ["default", "s1"], none⟩],
       [("s1", .vector ⟨.single (.simpleFill []), none⟩)],
       DefaultStyleTable.init, []⟩) :=
  (removeStyle_spec _ "s1" (by decide)).1
    ⟨⟨"l0", false, "polygon", "s1", ["default", "s1"], none⟩,
      by decide, rfl⟩

/-- C4 amended: `remove_layer` removes the layer from the descriptor when
the descriptor write succeeds; with mirroring disabled it returns the
descriptor-write result, but with mirroring enabled it returns `False`
when the mirror read fails (the descriptor change is already committed)
and otherwise returns the mirror-read result `True`, not the
descriptor-write result. -/
theorem removeLayer_spec (wOk mrOk mwOk : Bool) (st : ProjectState)
    (name : String) :
    (removeLayer false wOk mrOk mwOk st name =
      (wOk, if wOk then
        { st with layers := st.layers.filter (fun l => l.name ≠ name) }
       else st)) ∧
    (mrOk = false →
      removeLayer true wOk mrOk mwOk st name =
      (false, if wOk then
        { st with layers := st.layers.filter (fun l => l.name ≠ name) }
       else st)) ∧
    (mrOk = true → (removeLayer true wOk mrOk mwOk st name).1 = true) := by
  refine ⟨by simp [removeLayer], ?_, ?_⟩
  · rintro rfl
    simp [removeLayer]
  · rintro rfl
    simp [removeLayer]

/-- C4 witness: with mirroring enabled and a successful mirror read,
`remove_layer("l0")` returns the mirror-read result `True`. -/
theorem removeLayer_spec_witness :
    (removeLayer true true true true
      ⟨[⟨"l0", false, "polygon", "default", ["default"], none⟩], [],
       DefaultStyleTable.init, []⟩ "l0").1 = true :=
  (removeLayer_spec true true true
    ⟨[⟨"l0", false, "polygon", "default", ["default"], none⟩], [],
     DefaultStyleTable.init, []⟩ "l0").2.2 rfl

/-- C4 counterexample: with mirroring enabled, a successful descriptor
write and a failing mirror read, `remove_layer("l0")` has already removed
the layer from the descriptor yet reports failure — contradicting the
claim that a cache-mirror read failure never causes the operation to
report failure (and that the descriptor-write result is returned). -/
theorem removeLayer_mirror_read_failure_reports_failure :
    removeLayer true true false true
      ⟨[⟨"l0", false, "polygon", "default", ["default"], none⟩], [],
       DefaultStyleTable.init, []⟩ "l0" =
    (false, ⟨[], [], DefaultStyleTable.init, []⟩) := by
  decide

/-- C7: the raster statistics refresher leaves the renderer (hence every
min/max bound) unchanged when the min/max-origin limits are `None_`, or
when the inspected contrast-enhancement algorithm is `NoEnhancement` or
`UserDefinedEnhancement` (given the channel enhancements it copies are
present). -/
theorem refreshMinMax_noop (stats : Int → ℚ × ℚ) (r : RasterRenderer)
    (h : rendererLimits r = RLimits.None_ ∨
      (cesPresent r = true ∧
        (inspectedAlgorithm r = some .NoEnhancement ∨
         inspectedAlgorithm r = some .UserDefinedEnhancement))) :
    refreshMinMax stats r = some r := by
  match r with
  | .pseudo s => simp [refreshMinMax]
  | .gray s =>
    by_cases hlim : s.limits = RLimits.None_
    · simp [refreshMinMax, hlim]
    · rcases h with h | ⟨_, h⟩
      · simp only [rendererLimits] at h
        exact absurd h hlim
      · cases hce : s.ce with
        | none => simp [inspectedAlgorithm, hce] at h
        | some ce =>
          have halg : ce.alg = RAlg.NoEnhancement ∨
              ce.alg = RAlg.UserDefinedEnhancement := by
            simpa [inspectedAlgorithm, hce] using h
          rcases halg with h1 | h1 <;>
            simp [refreshMinMax, hlim, refreshMinMaxSinglebandgray, hce, h1]
  | .multi s =>
    by_cases hlim : s.limits = RLimits.None_
    · simp [refreshMinMax, hlim]
    · rcases h with h | ⟨hces, h⟩
      · simp only [rendererLimits] at h
        exact absurd h hlim
      · simp only [cesPresent, Bool.and_eq_true, Option.isSome_iff_exists]
          at hces
        obtain ⟨⟨⟨rce, hrce⟩, gce, hgce⟩, bce, hbce⟩ := hces
        have halg : rce.alg = RAlg.NoEnhancement ∨
            rce.alg = RAlg.UserDefinedEnhancement := by
          simpa [inspectedAlgorithm, hrce] using h
        rcases halg with h1 | h1 <;>
          simp [refreshMinMax, hlim, refreshMinMaxMultibandcolor, hrce,
            hgce, hbce, h1]

/-- C7 witness: a single-band-gray renderer whose min/max origin is
`None_` is left unchanged by the refresher. -/
theorem refreshMinMax_noop_witness :
    refreshMinMax (fun _ => (0, 0))
      (.gray ⟨1, .BlackToWhite, .None_, none⟩) =
    some (.gray ⟨1, .BlackToWhite, .None_, none⟩) :=
  refreshMinMax_noop _ _ (Or.inl rfl)

theorem find?_upsertBlob (name : String) (b : StyleBlob)
    (l : List (String × StyleBlob)) :
    (upsertBlob name b l).find? (fun p => p.1 = name) = some (name, b) := by
  induction l with
  | nil => simp [upsertBlob]
  | cons kv rest ih =>
    by_cases hk : kv.1 = name
    · simp [upsertBlob, hk]
    · simp only [upsertBlob, if_neg hk]
      rw [List.find?_cons_of_neg _ (by simp [hk])]
      exact ih

/-- C10: `add_style` performs no duplicate-name check — with a style name
already stored and a symbology the codec accepts, both the raster and the
vector paths succeed and silently replace the stored blob under that
name. -/
theorem addStyle_overwrites (st : ProjectState) (name : String)
    (_hname : name ∈ styleNames st)
    (symR : RasterStyleInput) (rendR : RasterRendering) (dsMin dsMax : ℚ)
    (blobR : RasterLayerState)
    (hR : addStyleRaster symR rendR dsMin dsMax = ((true, ""), some blobR))
    (symV : VectorStyleInput) (rendV : VectorRendering)
    (blobV : VectorLayerBlob)
    (hV : addStyleVector symV rendV = .ok ((true, ""), some blobV)) :
    ((addStyleRasterProject st name symR rendR dsMin dsMax).1 = (true, "") ∧
      lookupBlob (addStyleRasterProject st name symR rendR dsMin dsMax).2
        name = some (.raster blobR)) ∧
    (∃ st2, addStyleVectorProject st name symV rendV = .ok ((true, ""), st2) ∧
      lookupBlob st2 name = some (.vector blobV)) := by
  refine ⟨⟨?_, ?_⟩,
    ⟨{ st with styleBlobs := upsertBlob name (.vector blobV) st.styleBlobs },
      ?_, ?_⟩⟩
  · simp [addStyleRasterProject, hR]
  · simp [addStyleRasterProject, hR, lookupBlob, find?_upsertBlob]
  · simp [addStyleVectorProject, hV]
  · simp [lookupBlob, find?_upsertBlob]

/-- C10 witness: re-adding style `s1` (already stored) with the
multi-band-color symbology of Scenario B succeeds and replaces the
stored blob. -/
theorem addStyle_overwrites_witness :
    lookupBlob
      (addStyleRasterProject
        ⟨[], [("s1", .vector ⟨.single (.simpleFill []), none⟩)],
         DefaultStyleTable.init, []⟩
        "s1"
        ⟨some "multibandcolor",
         some ⟨none, none, some ⟨1, none, none⟩, some ⟨1, none, none⟩,
           some ⟨1, none, none⟩, none, none, none⟩⟩
        ⟨some 1, some 10, some 3, some 2⟩ 0 0).2 "s1" =
      some (.raster ⟨.multi ⟨1, 1, 1, .MinMax, none, none, none⟩,
        ⟨10, 3, 1, 2⟩⟩) :=
  (addStyle_overwrites
    ⟨[], [("s1", .vector ⟨.single (.simpleFill []), none⟩)],
     DefaultStyleTable.init, []⟩
    "s1" (by decide)
    ⟨some "multibandcolor",
     some ⟨none, none, some ⟨1, none, none⟩, some ⟨1, none, none⟩,
       some ⟨1, none, none⟩, none, none, none⟩⟩
    ⟨some 1, some 10, some 3, some 2⟩ 0 0
    ⟨.multi ⟨1, 1, 1, .MinMax, none, none, none⟩, ⟨10, 3, 1, 2⟩⟩ rfl
    ⟨some "single_symbol", some "fill",
     some ⟨some "1", some "solid", some "0,0,0,255", some "1,2,3,255",
       none, none, none, none, none⟩⟩
    ⟨none⟩
    ⟨.single (.simpleFill
      [("outline_width", "1"), ("outline_style", "solid"),
       ("outline_color", "0,0,0,255"), ("color", "1,2,3,255"),
       ("outline_width_unit", "MM")]), none⟩ rfl).1.2

/-- C1 amended: `add_layer` aborts without mutating persisted state on
the failures detected before the descriptor write — invalid kind,
duplicate name, a failing raster overview build (regardless of the
layer's validity), invalid datasource (the validity checks, which also
shadow the later checks when the layer is invalid), and an unparseable
datetime, which the shell rejects before calling the engine.  The
invalid-CRS and cache-mirror failures, by contrast, are detected only
after the descriptor write and leave the layer registered (see the
counterexample). -/
theorem addLayer_atomic_early_failures (w : LayerWorld) (st : ProjectState)
    (lt name : String) (ov : Bool) (dt : Option String)
    (parseDT : String → Option String) (req : AddLayerRequest) :
    (layerTypeOf lt = none →
      addLayer w st lt name ov dt =
        some ((false, "Invalid layer type"), st)) ∧
    (∀ k, layerTypeOf lt = some k → name ∈ layerNames st →
      addLayer w st lt name ov dt =
        some ((false, "A layer with this name already exists"), st)) ∧
    (layerTypeOf lt = some LayerKind.raster → name ∉ layerNames st →
      ov = true → w.overviewExists = false → w.overviewBuildOk = false →
      addLayer w st lt name ov dt =
        some ((false, "Overview build error"), st)) ∧
    (w.valid = false →
      ∃ msg, addLayer w st lt name ov dt = some ((false, msg), st)) ∧
    (∀ s, req.datetime = some s → parseDT s = none →
      projectAddLayer parseDT w st req =
        some ((false, "Invalid datetime"), st)) := by
  refine ⟨?_, ?_, ?_, ?_, ?_⟩
  · intro h
    simp only [addLayer, h]
  · intro k hty hmem
    simp only [addLayer, hty]
    rw [if_pos hmem]
  · intro hty hmem hov hoe hob
    simp only [addLayer, hty]
    rw [if_neg hmem, if_pos (by simp [hov, hoe, hob])]
  · intro hv
    cases hty : layerTypeOf lt with
    | none =>
      exact ⟨"Invalid layer type", by simp only [addLayer, hty]⟩
    | some k =>
      by_cases hmem : name ∈ layerNames st
      · exact ⟨"A layer with this name already exists", by
          simp only [addLayer, hty]
          rw [if_pos hmem]⟩
      · by_cases hov : (decide (k = LayerKind.raster) && ov
            && !w.overviewExists && !w.overviewBuildOk) = true
        · exact ⟨"Overview build error", by
            simp only [addLayer, hty]
            rw [if_neg hmem, if_pos hov]⟩
        · exact ⟨"Invalid layer", by
            simp only [addLayer, hty]
            rw [if_neg hmem, if_neg (by simp [hov]), if_pos (by simp [hv])]⟩
  · intro s hs hp
    simp only [projectAddLayer, hs, hp]

/-- C1 witness: invalid kind — `add_layer` with layer type `"matrix"` on
an empty project fails and leaves the (empty) layer set unchanged. -/
theorem addLayer_atomic_early_failures_witness :
    addLayer ⟨true, "polygon", 4326, false, true, [], false, true, true⟩
      ⟨[], [], DefaultStyleTable.init, []⟩ "matrix" "layer0" false none =
    some ((false, "Invalid layer type"),
      ⟨[], [], DefaultStyleTable.init, []⟩) :=
  (addLayer_atomic_early_failures
    ⟨true, "polygon", 4326, false, true, [], false, true, true⟩
    ⟨[], [], DefaultStyleTable.init, []⟩ "matrix" "layer0" false none
    (fun _ => none)
    ⟨"layer0", "d.gpkg", "matrix", none, none, none⟩).1 (by decide)

/-- C1 counterexample: with cache mirroring enabled and a layer whose CRS
authid resolves to no numeric EPSG code, `add_layer` reports the
invalid-CRS failure but has already written the layer into the
descriptor: the layer set was empty before the call and contains
`layer0` afterwards — refuting the claim that every failing `add_layer`
(invalid CRS included) leaves the layer set unchanged. -/
theorem addLayer_crs_failure_mutates :
    addLayer ⟨true, "polygon", -1, false, true, [], true, true, true⟩
      ⟨[], [], DefaultStyleTable.init, []⟩ "vector" "layer0" false none =
    some ((false, "Invalid CRS"),
      ⟨[⟨"layer0", false, "polygon", "default", ["default"], none⟩],
        [], DefaultStyleTable.init, []⟩) ∧
    ([] : List LayerRec) ≠
      [⟨"layer0", false, "polygon", "default", ["default"], none⟩] := by
  constructor
  · decide
  · decide

/-- C2 amended: the raster codec round-trip `decode(encode(m)) = m` holds
for SingleBandGray models with `UserDefined` contrast limits, a present
contrast enhancement whose algorithm is `StretchToMinimumMaximum`, and
the `BlackToWhite` gradient, and for MultiBandColor models with
`UserDefined` limits and present channel enhancements all carrying
`StretchToMinimumMaximum`.  It fails for SingleBandPseudocolor (the
encoder emits empty properties — see the counterexample), for
`NoEnhancement` styles (the zero-valued enum is falsy in the decoder's
truthiness guard, so limits and bounds are never applied), for
`WhiteToBlack` gray gradients (the decoder matches lowercase gradient
strings while the encoder emits mixed case), and for `MinMax` limits
(bounds are recomputed from the dataset, not restored). -/
theorem raster_codec_roundtrip (dsMin dsMax : ℚ) :
    (∀ (s : GrayState) (ce : CE) (p : RasterProps),
      s.ce = some ce → ce.alg = RAlg.StretchToMinimumMaximum →
      s.gradient = Gradient.BlackToWhite → s.limits = RLimits.None_ →
      styleToJsonProperties (.gray s) = some p →
      decodeProperties grayTypeName p dsMin dsMax = some (.gray s)) ∧
    (∀ (s : MultiState) (rce gce bce : CE) (p : RasterProps),
      s.redCe = some rce → s.greenCe = some gce → s.blueCe = some bce →
      rce.alg = RAlg.StretchToMinimumMaximum →
      gce.alg = rce.alg → bce.alg = rce.alg →
      s.limits = RLimits.None_ →
      styleToJsonProperties (.multi s) = some p →
      decodeProperties multiTypeName p dsMin dsMax = some (.multi s)) := by
  constructor
  · rintro ⟨band, grad, lim, oce⟩ ⟨alg, mn, mx⟩ p hce halg hgrad hlim hp
    simp only at hce hgrad hlim
    subst hce hgrad hlim
    simp only [styleToJsonProperties, singlebandgrayProperties,
      Option.some.injEq] at hp
    subst hp
    cases alg with
    | StretchToMinimumMaximum => rfl
    | NoEnhancement => simp at halg
    | UserDefinedEnhancement => simp at halg
  · rintro ⟨rb, gb, bb, lim, orce, ogce, obce⟩ ⟨ralg, rmn, rmx⟩
      ⟨galg, gmn, gmx⟩ ⟨balg, bmn, bmx⟩ p hr hg hb halg hge hbe hlim hp
    simp only at hr hg hb hlim hge hbe
    subst hr hg hb hlim
    subst hge hbe
    simp only [styleToJsonProperties, multibandcolorProperties,
      Option.some.injEq] at hp
    subst hp
    cases balg with
    | StretchToMinimumMaximum => rfl
    | NoEnhancement => simp at halg
    | UserDefinedEnhancement => simp at halg

/-- C2 witness: the round-trip at a concrete SingleBandGray model with
band 3, user-defined bounds 5/10 and the min/max stretch algorithm. -/
theorem raster_codec_roundtrip_witness :
    decodeProperties grayTypeName
      ⟨some ⟨"StretchToMinimumMaximum", "UserDefined"⟩,
       some ⟨3, some 5, some 10⟩, none, none, none,
       some "BlackToWhite", none, none⟩ 0 0 =
    some (.gray ⟨3, .BlackToWhite, .None_,
      some ⟨.StretchToMinimumMaximum, 5, 10⟩⟩) :=
  (raster_codec_roundtrip 0 0).1
    ⟨3, .BlackToWhite, .None_, some ⟨.StretchToMinimumMaximum, 5, 10⟩⟩
    ⟨.StretchToMinimumMaximum, 5, 10⟩
    ⟨some ⟨"StretchToMinimumMaximum", "UserDefined"⟩,
     some ⟨3, some 5, some 10⟩, none, none, none,
     some "BlackToWhite", none, none⟩
    rfl rfl rfl rfl rfl

/-- C2 counterexample: a SingleBandPseudocolor model with band 2 encodes
to the empty properties dictionary and decodes back to the default model
with band 1: `decode(encode(m)) ≠ m`, refuting the round-trip law for the
pseudocolor variant. -/
theorem pseudocolor_roundtrip_fails :
    (styleToJsonProperties (.pseudo ⟨2, .MinMax, none⟩)).bind
        (fun p => decodeProperties pseudoTypeName p 0 0) =
      some (.pseudo ⟨1, .MinMax, none⟩) ∧
    (styleToJsonProperties (.pseudo ⟨2, .MinMax, none⟩)).bind
        (fun p => decodeProperties pseudoTypeName p 0 0) ≠
      some (.pseudo ⟨2, .MinMax, none⟩) := by
  constructor
  · decide
  · decide

/-- C5: applying a stored style `s` (a style distinct from the seeded
`"default"` entry, as in Scenario C's `s1`) as current to a layer whose
attached style set is `["default"]` succeeds, attaches `s` as a new named
style entry and sets it current: afterwards the layer's current style is
`s` and its style list is `["default", s]`, and the stored style blobs
are not mutated (copy-on-attach). -/
theorem layerUpdateStyle_applies (st : ProjectState) (ln s : String)
    (l : LayerRec)
    (hfind : st.layers.find? (fun x => x.name = pyStrip ln) = some l)
    (hstyles : l.styles = ["default"]) (hs : s ≠ "default") :
    ∃ st2, layerUpdateStyle st ln s true = some ((true, ""), st2) ∧
      st2.layers.find? (fun x => x.name = pyStrip ln) =
        some { l with currentStyle := s, styles := ["default", s] } ∧
      st2.styleBlobs = st.styleBlobs := by
  have hsl : s ∉ l.styles := by
    rw [hstyles]
    simp [hs]
  have hpl : l.name = pyStrip ln := by
    simpa using List.find?_some hfind
  have hrun : layerUpdateStyle st ln s true = some ((true, ""),
      { st with layers := updateFirst (fun x => x.name = pyStrip ln)
                            (attachStyle s true) st.layers }) := by
    simp only [layerUpdateStyle, hfind]
  refine ⟨_, hrun, ?_, rfl⟩
  have hF : attachStyle s true l =
      { l with currentStyle := s, styles := ["default", s] } := by
    simp [attachStyle, hstyles, hs]
  have hf : (decide ((attachStyle s true l).name = pyStrip ln)) = true := by
    rw [hF]
    simp [hpl]
  have hres := find?_updateFirst (fun x => x.name = pyStrip ln)
    (attachStyle s true) st.layers l hfind hf
  rw [hF] at hres
  exact hres

/-- C5 witness: Scenario C on a raster layer `l0` with style set
`["default"]`: applying stored style `s1` as current yields current style
`s1` and style list `["default", "s1"]`. -/
theorem layerUpdateStyle_applies_witness :
    ∃ st2, layerUpdateStyle
        ⟨[⟨"l0", true, "", "default", ["default"], none⟩],
         [("s1", .vector ⟨.single (.simpleFill []), none⟩)],
         DefaultStyleTable.init, []⟩ "l0" "s1" true =
      some ((true, ""), st2) ∧
      st2.layers.find? (fun x => x.name = pyStrip "l0") =
        some ⟨"l0", true, "", "s1", ["default", "s1"], none⟩ ∧
      st2.styleBlobs = [("s1", .vector ⟨.single (.simpleFill []), none⟩)] :=
  layerUpdateStyle_applies
    ⟨[⟨"l0", true, "", "default", ["default"], none⟩],
     [("s1", .vector ⟨.single (.simpleFill []), none⟩)],
     DefaultStyleTable.init, []⟩
    "l0" "s1" ⟨"l0", true, "", "default", ["default"], none⟩
    (by decide) rfl (by decide)

/-- C6: after `update_default_style("polygon", "custom")`, adding a valid
vector layer with polygon geometry (fresh, whitespace-free name; mirror
update succeeding when cache mirroring is enabled) succeeds, registers
the layer with its style set seeded with `"default"`, and immediately
applies the default-style-table entry for its geometry class: the new
layer's current style is `"custom"`. -/
theorem addLayer_applies_default_style (w : LayerWorld) (st : ProjectState)
    (name : String) (ov : Bool) (dt : Option String)
    (hvalid : w.valid = true) (hgeom : w.geometry = "polygon")
    (hstrip : pyStrip name = name)
    (hfresh : name ∉ layerNames st)
    (hmp : w.mapproxyEnabled = true →
      0 ≤ w.resolvedEpsg ∧ w.mpReadOk = true ∧ w.mpAddOk = true) :
    ∃ st2, addLayer w
        { st with defaultStyles :=
            styleUpdate st.defaultStyles "polygon" "custom" }
        "vector" name ov dt = some ((true, ""), st2) ∧
      st2.layers.find? (fun x => x.name = name) =
        some ⟨name, false, "polygon", "custom", ["default", "custom"],
          none⟩ := by
  have hnoneOld : ∀ x ∈ st.layers, (decide (x.name = pyStrip name)) = false := by
    intro x hx
    rw [hstrip, decide_eq_false_iff_not]
    intro hxn
    exact hfresh (by simpa [layerNames, List.mem_map] using ⟨x, hx, hxn⟩)
  have hnoneOld' : ∀ x ∈ st.layers, (decide (x.name = name)) = false := by
    intro x hx
    have := hnoneOld x hx
    rwa [hstrip] at this
  have hattach : attachStyle "custom" true
      (⟨name, false, "polygon", "default", ["default"], none⟩ : LayerRec) =
      ⟨name, false, "polygon", "custom", ["default", "custom"], none⟩ := by
    simp [attachStyle]
  have hlus : layerUpdateStyle
      { st with
        defaultStyles := styleUpdate st.defaultStyles "polygon" "custom"
        layers := st.layers ++
          [⟨name, false, "polygon", "default", ["default"], none⟩] }
      name "custom" true =
      some ((true, ""),
        { st with
          defaultStyles := styleUpdate st.defaultStyles "polygon" "custom"
          layers := st.layers ++
            [⟨name, false, "polygon", "custom", ["default", "custom"],
              none⟩] }) := by
    simp only [layerUpdateStyle]
    rw [find?_append_left_none _ _ _ hnoneOld]
    rw [List.find?_cons_of_pos _ (by simp [hstrip])]
    rw [updateFirst_append_left_none _ _ _ _ hnoneOld]
    simp only [updateFirst, hstrip]
    rw [if_pos (by simp)]
    rw [hattach]
  have hfindNew : (st.layers ++
      [(⟨name, false, "polygon", "custom", ["default", "custom"], none⟩ :
        LayerRec)]).find? (fun x => x.name = name) =
      some ⟨name, false, "polygon", "custom", ["default", "custom"],
        none⟩ := by
    rw [find?_append_left_none _ _ _ hnoneOld']
    rw [List.find?_cons_of_pos _ (by simp)]
  have hcore : addLayer w
      { st with defaultStyles :=
          styleUpdate st.defaultStyles "polygon" "custom" }
      "vector" name ov dt =
      (if w.mapproxyEnabled then
        (if w.resolvedEpsg < 0 then
          some ((false, "Invalid CRS"),
            { st with
              defaultStyles := styleUpdate st.defaultStyles "polygon" "custom"
              layers := st.layers ++
                [⟨name, false, "polygon", "custom", ["default", "custom"],
                  none⟩] })
         else if !w.mpReadOk then
          some ((false, "MapProxy read error"),
            { st with
              defaultStyles := styleUpdate st.defaultStyles "polygon" "custom"
              layers := st.layers ++
                [⟨name, false, "polygon", "custom", ["default", "custom"],
                  none⟩] })
         else if !w.mpAddOk then
          some ((false, "MapProxy add error"),
            { st with
              defaultStyles := styleUpdate st.defaultStyles "polygon" "custom"
              layers := st.layers ++
                [⟨name, false, "polygon", "custom", ["default", "custom"],
                  none⟩] })
         else
          some ((true, ""),
            { st with
              defaultStyles := styleUpdate st.defaultStyles "polygon" "custom"
              layers := st.layers ++
                [⟨name, false, "polygon", "custom", ["default", "custom"],
                  none⟩]
              mirror := st.mirror ++
                [(name, ⟨w.bbox, w.resolvedEpsg, false, dt⟩)] }))
       else
        some ((true, ""),
          { st with
            defaultStyles := styleUpdate st.defaultStyles "polygon" "custom"
            layers := st.layers ++
              [⟨name, false, "polygon", "custom", ["default", "custom"],
                none⟩] })) := by
    have hmem : ¬ name ∈ layerNames
        { st with defaultStyles :=
            styleUpdate st.defaultStyles "polygon" "custom" } := hfresh
    have hsd : styleDefault
        (styleUpdate st.defaultStyles "polygon" "custom") "polygon" =
        some "custom" := by
      simp [styleUpdate, styleDefault]
    simp only [addLayer]
    rw [show layerTypeOf "vector" = some LayerKind.vector from rfl]
    simp [if_neg hmem, hvalid, hgeom, hsd, hlus]
  by_cases hmpe : w.mapproxyEnabled = true
  · obtain ⟨he, hr, ha⟩ := hmp hmpe
    refine ⟨{ st with
        defaultStyles := styleUpdate st.defaultStyles "polygon" "custom"
        layers := st.layers ++
          [⟨name, false, "polygon", "custom", ["default", "custom"], none⟩]
        mirror := st.mirror ++
          [(name, ⟨w.bbox, w.resolvedEpsg, false, dt⟩)] }, ?_, ?_⟩
    · rw [hcore, if_pos hmpe, if_neg (by omega), hr, ha]
      simp
    · exact hfindNew
  · refine ⟨{ st with
        defaultStyles := styleUpdate st.defaultStyles "polygon" "custom"
        layers := st.layers ++
          [⟨name, false, "polygon", "custom", ["default", "custom"],
            none⟩] }, ?_, ?_⟩
    · rw [hcore, if_neg hmpe]
    · exact hfindNew

/-- C6 witness: Scenario E on an empty project: set the polygon default
style to `custom`, then add vector layer `layer0` with polygon geometry
(no cache mirroring): the registered layer's current style is `custom`
and its style list is `["default", "custom"]`. -/
theorem addLayer_applies_default_style_witness :
    ∃ st2, addLayer ⟨true, "polygon", 4326, false, true, [], false, true,
        true⟩
        { (⟨[], [], DefaultStyleTable.init, []⟩ : ProjectState) with
            defaultStyles := styleUpdate DefaultStyleTable.init "polygon"
              "custom" }
        "vector" "layer0" false none = some ((true, ""), st2) ∧
      st2.layers.find? (fun x => x.name = "layer0") =
        some ⟨"layer0", false, "polygon", "custom", ["default", "custom"],
          none⟩ :=
  addLayer_applies_default_style
    ⟨true, "polygon", 4326, false, true, [], false, true, true⟩
    ⟨[], [], DefaultStyleTable.init, []⟩
    "layer0" false none rfl rfl (by decide) (by decide)
    (by intro h; cases h)

/-- C8 amended: the marker color path performs no RGBA validation.  With
the `color`, `symbol_path` and `size` keys present, `add_style` on a
single-symbol marker succeeds and writes the style whenever the first
four comma-separated fields of the color string parse as integers —
regardless of the total channel count and of the channel values' range —
and when the color string splits into fewer than four fields (all
parseable) the call raises an `IndexError`, an unhandled exception
rather than an `InvalidColorFormat` result, and writes no style. -/
theorem marker_color_unvalidated (props : VectorProps)
    (c path : String) (size : ℚ) (rend : VectorRendering)
    (hc : props.color = some c) (hpath : props.symbol_path = some path)
    (hsize : props.size = some size) :
    (∀ (s0 s1 s2 s3 : String) (rest : List String) (c0 c1 c2 c3 : Int),
      pySplitComma c = s0 :: s1 :: s2 :: s3 :: rest →
      pyIntParse s0 = some c0 → pyIntParse s1 = some c1 →
      pyIntParse s2 = some c2 → pyIntParse s3 = some c3 →
      addStyleVector ⟨some "single_symbol", some "marker", some props⟩
          rend =
        .ok ((true, ""), some ⟨.single (.markerSvg path (c0, c1, c2, c3)
          (0, 0, 0, c3) size), rend.opacity⟩)) ∧
    ((pySplitComma c).length < 4 →
      (∀ s ∈ pySplitComma c, (pyIntParse s).isSome) →
      addStyleVector ⟨some "single_symbol", some "marker", some props⟩
          rend =
        .error .indexError) := by
  constructor
  · intro s0 s1 s2 s3 rest c0 c1 c2 c3 hsplit h0 h1 h2 h3
    have hbuild : buildMarkerSymbol c path size =
        .ok (.markerSvg path (c0, c1, c2, c3) (0, 0, 0, c3) size) := by
      simp [buildMarkerSymbol, hsplit, pyIndex, pyInt, h0, h1, h2, h3,
        bind, Except.bind]
    simp [addStyleVector, createSingleSymbolStyle, pyGet, hc, hpath,
      hsize, hbuild, bind, Except.bind]
  · intro hlen hall
    have hbuild : buildMarkerSymbol c path size = .error .indexError := by
      rcases hsplit : pySplitComma c with _ | ⟨a, _ | ⟨b, _ | ⟨e, _ |
        ⟨d, rest⟩⟩⟩⟩
      · simp [buildMarkerSymbol, hsplit, pyIndex, bind, Except.bind]
      · rw [hsplit] at hall
        obtain ⟨na, ha⟩ := Option.isSome_iff_exists.mp
          (hall a (by simp))
        simp [buildMarkerSymbol, hsplit, pyIndex, pyInt, ha, bind,
          Except.bind]
      · rw [hsplit] at hall
        obtain ⟨na, ha⟩ := Option.isSome_iff_exists.mp
          (hall a (by simp))
        obtain ⟨nb, hb⟩ := Option.isSome_iff_exists.mp
          (hall b (by simp))
        simp [buildMarkerSymbol, hsplit, pyIndex, pyInt, ha, hb, bind,
          Except.bind]
      · rw [hsplit] at hall
        obtain ⟨na, ha⟩ := Option.isSome_iff_exists.mp
          (hall a (by simp))
        obtain ⟨nb, hb⟩ := Option.isSome_iff_exists.mp
          (hall b (by simp))
        obtain ⟨ne, he⟩ := Option.isSome_iff_exists.mp
          (hall e (by simp))
        simp [buildMarkerSymbol, hsplit, pyIndex, pyInt, ha, hb, he,
          bind, Except.bind]
      · rw [hsplit] at hlen
        simp at hlen
        omega
    simp [addStyleVector, createSingleSymbolStyle, pyGet, hc, hpath,
      hsize, hbuild, bind, Except.bind]

/-- C8 witness: a well-formed 4-channel marker color `10,20,30,40`
succeeds and writes the marker style. -/
theorem marker_color_unvalidated_witness :
    addStyleVector ⟨some "single_symbol", some "marker",
        some ⟨none, none, none, some "10,20,30,40", some "icon.svg",
          some 5, none, none, none⟩⟩ ⟨none⟩ =
      .ok ((true, ""), some ⟨.single (.markerSvg "icon.svg"
        (10, 20, 30, 40) (0, 0, 0, 40) 5), none⟩) :=
  (marker_color_unvalidated
    ⟨none, none, none, some "10,20,30,40", some "icon.svg", some 5,
      none, none, none⟩
    "10,20,30,40" "icon.svg" 5 ⟨none⟩ rfl rfl rfl).1
    "10" "20" "30" "40" [] 10 20 30 40 (by decide) (by decide)
    (by decide) (by decide) (by decide)

/-- C8 counterexample: the five-channel color `10,20,30,40,50` on a
single-symbol marker is accepted — `add_style` succeeds using the first
four channels and writes the style — refuting the claim that decode
fails with `InvalidColorFormat` whenever the channel count is not
exactly 4. -/
theorem marker_color_five_channels_accepted :
    addStyleVector ⟨some "single_symbol", some "marker",
        some ⟨none, none, none, some "10,20,30,40,50", some "icon.svg",
          some 5, none, none, none⟩⟩ ⟨none⟩ =
      .ok ((true, ""), some ⟨.single (.markerSvg "icon.svg"
        (10, 20, 30, 40) (0, 0, 0, 40) 5), none⟩) := by
  rfl

/-- C9: `create` on an already-present project returns the bare value
`False` — not a `(success, message)` pair — although the engine's own
signature and its caller (`rc, err = project.create(author)`) expect the
pair form; the API shell only avoids the fault by checking existence
before calling `create`. -/
theorem create_on_present_returns_bare (writeOk : Bool) (err : String)
    (mp : Bool) (st : ProjectState) :
    createProject writeOk err mp (some st) = (.bare false, some st) ∧
    (∀ (b : Bool) (m : String), PyRet.bare false ≠ PyRet.pair b m) ∧
    projectAdd writeOk err mp (some st) =
      ((false, "Project already exists"), some st) := by
  refine ⟨rfl, ?_, rfl⟩
  intro b m h
  cases h

end QSA
